import Mathlib

/-!
# Verification of the ODrive MKS tuning GUI (`main.py`)

This file is a shallow embedding of the device-facing logic of
`src/main.py`: the `ODriveWorker` thread (discovery, the telemetry poll
loop, and the command methods `set_state`, `update_tuning`, `set_input`,
`clear_errors`, `reboot`) and the device- and state-relevant parts of
`MainWindow` (`apply_tuning`, `handle_manual_input`, `send_target`,
`update_telemetry`).

Modelling conventions:
* Python floats/ints carried through the program are modelled as `Rat`;
  no claim depends on floating-point rounding.
* A remote device is a behaviour record `Device`: reads return
  `Except Unit Rat` (an exception or a value) and writes may fail,
  per attribute.  Every attempted device operation is recorded in a
  trace of `DevEvent`s, in program order.
* `float(text)` parsing of a Qt line edit is modelled by storing the
  parse result `Option Rat` in the UI-input record: `none` is a
  `ValueError`.
* Qt labels and plot curves are modelled by the datum they render.
* `time.sleep` calls are no-ops in the model.
-/

/-- Remote attributes of the device read or written by `main.py`
(paths under `odrv` / `odrv.axis0`). -/
inductive Attr
  | iqMeasured
  | vbusVoltage
  | posEstimate
  | velEstimate
  | shadowCount
  | axisError
  | encoderError
  | motorError
  | currentState
  | requestedState
  | controlMode
  | inputMode
  | velLimit
  | posGain
  | velGain
  | velIntegratorGain
  | inputPos
  | inputVel
  deriving DecidableEq, Repr

/-- Behaviour of a (reachable) remote device: each attribute read either
raises (`Except.error`) or yields a value; each attribute write either
succeeds or raises; the two RPC-style calls may raise. -/
structure Device where
  read : Attr → Except Unit Rat
  writeFails : Attr → Bool
  clearErrorsFails : Bool
  rebootFails : Bool

/-- One attempted device interaction, recorded in program order. -/
inductive DevEvent
  | write (a : Attr) (v : Rat)
  | readAttr (a : Attr)
  | clearErrorsCall
  | rebootCall
  deriving DecidableEq, Repr

/-- Payload of a `data_received` emission: either the one-time
`{"init_config": {...}}` packet or a regular telemetry dict; dicts are
association lists of key/value pairs in insertion order. -/
inductive Packet
  | initConfig (cfg : List (String × Rat))
  | telemetry (fields : List (String × Rat))
  deriving DecidableEq, Repr

/-- A Qt signal emission from the worker: `data_received(dict)` or
`connection_status(bool, str)`. -/
inductive Signal
  | dataReceived (p : Packet)
  | connectionStatus (connected : Bool) (msg : String)
  deriving DecidableEq, Repr

/-- Result of executing one worker method (or one loop fragment):
the connection handle afterwards, the signals emitted, the device
operations attempted (in order), and whether an exception escaped the
method uncaught. -/
structure MethodResult where
  odrv : Option Device
  signals : List Signal
  trace : List DevEvent
  raised : Bool

/-- Attempt a sequence of attribute writes in order, recording each
attempt; stop at the first failing write (the exception propagates).
Returns the trace and whether a write raised. -/
def writeSeq (d : Device) : List (Attr × Rat) → List DevEvent × Bool
  | [] => ([], false)
  | (a, v) :: rest =>
    if d.writeFails a then ([DevEvent.write a v], true)
    else
      let r := writeSeq d rest
      (DevEvent.write a v :: r.1, r.2)

/-- Read a list of named attributes in order; the whole pass fails as
soon as one read raises (Python dict-literal evaluation order). -/
def readFields (d : Device) : List (String × Attr) → Except Unit (List (String × Rat))
  | [] => Except.ok []
  | (k, a) :: rest =>
    match d.read a with
    | Except.error e => Except.error e
    | Except.ok v =>
      match readFields d rest with
      | Except.error e => Except.error e
      | Except.ok vs => Except.ok ((k, v) :: vs)

/-- The ten telemetry fields of the poll loop's `data` dict, in the
source's key order (`main.py` lines 57-68). -/
def pollFields : List (String × Attr) :=
  [("iq", Attr.iqMeasured),
   ("vbus", Attr.vbusVoltage),
   ("pos", Attr.posEstimate),
   ("vel", Attr.velEstimate),
   ("shadow", Attr.shadowCount),
   ("error", Attr.axisError),
   ("enc_error", Attr.encoderError),
   ("state", Attr.currentState),
   ("ctrl_mode", Attr.controlMode),
   ("input_mode", Attr.inputMode)]

/-- The four `init_cfg` read-back fields (`main.py` lines 43-48). -/
def initFields : List (String × Attr) :=
  [("pos_gain", Attr.posGain),
   ("vel_gain", Attr.velGain),
   ("vel_integrator_gain", Attr.velIntegratorGain),
   ("mode", Attr.controlMode)]

/-- One iteration of the poll body (`main.py` lines 56-73) while a
handle is held: read all ten fields in one pass; on success emit the
snapshot and keep the handle (`true`); on any raise emit no data,
discard the handle (`false`) and emit `Disconnected`. -/
def ODriveWorker.pollCycle (d : Device) : Bool × List Signal :=
  match readFields d pollFields with
  | Except.ok vs => (true, [Signal.dataReceived (Packet.telemetry vs)])
  | Except.error _ => (false, [Signal.connectionStatus false "Disconnected"])

/-- `ODriveWorker.set_state` (`main.py` lines 75-77): guarded by
`if self.odrv:`; a single fire-and-forget write of `requested_state`
with no exception handler. -/
def ODriveWorker.set_state : Option Device → Rat → MethodResult
  | none, _ => ⟨none, [], [], false⟩
  | some d, code =>
    let r := writeSeq d [(Attr.requestedState, code)]
    ⟨some d, [], r.1, r.2⟩

/-- `ODriveWorker.update_tuning` (`main.py` lines 80-93): control mode,
input mode (the constant 1), velocity limit, the three gains, then
`input_pos := pos_estimate` and `input_vel := 0`, with no exception
handler. -/
def ODriveWorker.update_tuning :
    Option Device → Rat → Rat → Rat → Rat → Rat → MethodResult
  | none, _, _, _, _, _ => ⟨none, [], [], false⟩
  | some d, pos_g, vel_g, vel_i_g, vel_lim, mode =>
    let r1 := writeSeq d
      [(Attr.controlMode, mode), (Attr.inputMode, 1), (Attr.velLimit, vel_lim),
       (Attr.posGain, pos_g), (Attr.velGain, vel_g),
       (Attr.velIntegratorGain, vel_i_g)]
    if r1.2 then ⟨some d, [], r1.1, true⟩
    else
      match d.read Attr.posEstimate with
      | Except.error _ =>
        ⟨some d, [], r1.1 ++ [DevEvent.readAttr Attr.posEstimate], true⟩
      | Except.ok p =>
        let r2 := writeSeq d [(Attr.inputPos, p), (Attr.inputVel, 0)]
        ⟨some d, [], r1.1 ++ DevEvent.readAttr Attr.posEstimate :: r2.1, r2.2⟩

/-- `ODriveWorker.set_input` (`main.py` lines 95-100): writes
`input_pos` when `is_pos_mode` else `input_vel`, never both. -/
def ODriveWorker.set_input : Option Device → Rat → Bool → MethodResult
  | none, _, _ => ⟨none, [], [], false⟩
  | some d, v, is_pos_mode =>
    let a := if is_pos_mode then Attr.inputPos else Attr.inputVel
    let r := writeSeq d [(a, v)]
    ⟨some d, [], r.1, r.2⟩

/-- `ODriveWorker.clear_errors` (`main.py` lines 104-112): three direct
error-field zeroings (unguarded), then the device-level `clear_errors()`
call wrapped in `try/except: pass` (best-effort). -/
def ODriveWorker.clear_errors : Option Device → MethodResult
  | none => ⟨none, [], [], false⟩
  | some d =>
    let r := writeSeq d
      [(Attr.axisError, 0), (Attr.encoderError, 0), (Attr.motorError, 0)]
    if r.2 then ⟨some d, [], r.1, true⟩
    else ⟨some d, [], r.1 ++ [DevEvent.clearErrorsCall], false⟩

/-- `ODriveWorker.reboot` (`main.py` lines 114-120): best-effort
`self.odrv.reboot()` in `try/except: pass`, then `self.odrv = None`
unconditionally. -/
def ODriveWorker.reboot : Option Device → MethodResult
  | none => ⟨none, [], [], false⟩
  | some _ => ⟨none, [], [DevEvent.rebootCall], false⟩

/-- Environment of one `run` loop iteration: whether `find_any` would
succeed this cycle, and the device behaviour during the cycle (device
behaviour may change between cycles — transient faults). -/
structure Env where
  findSucceeds : Bool
  dev : Device

/-- One iteration of `ODriveWorker.run`'s `while` loop (`main.py`
lines 36-73).  With no handle: emit `Searching...`, call `find_any`;
on discovery failure `continue`; on success the handle is assigned,
then the four-field read-back runs still inside the same `try` — if it
raises, `continue` (the handle stays assigned, no init event, no
`Connected`); if it succeeds, emit the init packet and `Connected` and
fall through to the poll body.  With a handle: run the poll body. -/
def ODriveWorker.runIter (hasHandle : Bool) (e : Env) : Bool × List Signal :=
  if hasHandle then ODriveWorker.pollCycle e.dev
  else if e.findSucceeds = false then
    (false, [Signal.connectionStatus false "Searching..."])
  else
    match readFields e.dev initFields with
    | Except.error _ => (true, [Signal.connectionStatus false "Searching..."])
    | Except.ok cfg =>
      let r := ODriveWorker.pollCycle e.dev
      (r.1, Signal.connectionStatus false "Searching..."
              :: Signal.dataReceived (Packet.initConfig cfg)
              :: Signal.connectionStatus true "Connected" :: r.2)

/-- The signal trace of running the loop over a list of per-iteration
environments. -/
def ODriveWorker.runLoop : Bool → List Env → List Signal
  | _, [] => []
  | h, e :: es =>
    let r := ODriveWorker.runIter h e
    r.2 ++ ODriveWorker.runLoop r.1 es

/-- Is a signal the one-time init-config data emission? -/
def isInitSignal : Signal → Bool
  | Signal.dataReceived (Packet.initConfig _) => true
  | _ => false

/-- Is a signal a regular telemetry data emission? -/
def isTelemetrySignal : Signal → Bool
  | Signal.dataReceived (Packet.telemetry _) => true
  | _ => false

/-- Python `int()` truncation toward zero on a rational. -/
def pyInt (q : Rat) : Int := if q < 0 then ⌈q⌉ else ⌊q⌋

/-- The user-editable input widgets of `MainWindow` that the handlers
read: each line edit is modelled by the result of `float(text)` on its
current text (`none` = `ValueError`), the mode combo box by its index
(0 = Position Control, 1 = Velocity Control), and the setpoint slider
by its integer value. -/
structure UIInput where
  pos_g_text : Option Rat
  vel_g_text : Option Rat
  vel_i_text : Option Rat
  vel_lim_text : Option Rat
  target_text : Option Rat
  mode_index : Nat
  slider_value : Int

/-- `CONTROL_MODE_POSITION_CONTROL` from the vendor `odrive.enums`. -/
def CONTROL_MODE_POSITION_CONTROL : Rat := 3

/-- `CONTROL_MODE_VELOCITY_CONTROL` from the vendor `odrive.enums`. -/
def CONTROL_MODE_VELOCITY_CONTROL : Rat := 2

/-- `AXIS_STATE_CLOSED_LOOP_CONTROL` from the vendor `odrive.enums`. -/
def AXIS_STATE_CLOSED_LOOP_CONTROL : Rat := 8

/-- `MainWindow.send_target` (`main.py` lines 305-314): dispatch the
value to `set_input` with `is_pos_mode` iff the combo box is at
index 0. -/
def MainWindow.send_target (ui : UIInput) (w : Option Device) (val : Rat) :
    MethodResult :=
  ODriveWorker.set_input w val (decide (ui.mode_index = 0))

/-- `MainWindow.handle_manual_input` (`main.py` lines 295-303): parse
the setpoint text; on `ValueError` do nothing at all; on success move
the slider to `int(val * 100)` and dispatch via `send_target`. -/
def MainWindow.handle_manual_input (ui : UIInput) (w : Option Device) :
    UIInput × MethodResult :=
  match ui.target_text with
  | none => (ui, ⟨w, [], [], false⟩)
  | some val =>
    ({ ui with slider_value := pyInt (val * 100) },
     MainWindow.send_target ui w val)

/-- `MainWindow.apply_tuning` (`main.py` lines 327-344): inside a
`try/except ValueError`, first `worker.clear_errors()`, then parse the
four tuning line edits, then `worker.update_tuning(...)` and
`worker.set_state(AXIS_STATE_CLOSED_LOOP_CONTROL)`.  A `ValueError`
from parsing is caught (message printed); a device exception from any
worker call is not a `ValueError` and propagates. -/
def MainWindow.apply_tuning (ui : UIInput) (w : Option Device) : MethodResult :=
  let r1 := ODriveWorker.clear_errors w
  if r1.raised then r1
  else
    match ui.pos_g_text, ui.vel_g_text, ui.vel_i_text, ui.vel_lim_text with
    | some pg_val, some vg_val, some vig_val, some vlim_val =>
      let mode := if ui.mode_index = 0 then CONTROL_MODE_POSITION_CONTROL
                  else CONTROL_MODE_VELOCITY_CONTROL
      let r2 := ODriveWorker.update_tuning r1.odrv pg_val vg_val vig_val vlim_val mode
      if r2.raised then ⟨r2.odrv, [], r1.trace ++ r2.trace, true⟩
      else
        let r3 := ODriveWorker.set_state r2.odrv AXIS_STATE_CLOSED_LOOP_CONTROL
        ⟨r3.odrv, [], r1.trace ++ r2.trace ++ r3.trace, r3.raised⟩
    | _, _, _, _ => ⟨r1.odrv, [], r1.trace, false⟩

/-- `MainWindow.max_points` (`main.py` line 130). -/
def MainWindow.max_points : Nat := 200

/-- The presentation state touched by `MainWindow.update_telemetry`:
the four rolling history buffers, the cached axis state, the widgets it
writes (each label/line edit modelled by the datum it renders, the
combo box by its index) and the plot curves (modelled by the data list
last handed to `setData`). -/
structure UIState where
  iq_data : List Rat
  vbus_data : List Rat
  pos_data : List Rat
  vel_data : List Rat
  current_axis_state : Rat
  pos_g_shown : Rat
  vel_g_shown : Rat
  vel_i_shown : Rat
  mode_index : Nat
  label_state : Rat
  label_ctrl_mode : Rat
  label_inp_mode : Rat
  current_label : Rat
  power_label : Rat
  vbus_label : Rat
  label_shadow : Rat
  label_error : Rat
  label_live_pos : Rat
  label_live_vel : Rat
  iq_curve : List Rat
  vbus_curve : List Rat
  pos_curve : List Rat
  vel_curve : List Rat

/-- `MainWindow.update_telemetry` (`main.py` lines 356-422).  An
`init_config` packet sets the three gain line edits and the mode combo
box and returns early.  A telemetry packet updates the cached state and
the labels, appends to the four history buffers, pops each buffer's
head when `len(iq_data) > max_points`, and hands the buffers to the
curves.  A missing dict key is a `KeyError` (`none`). -/
def MainWindow.update_telemetry (ui : UIState) (p : Packet) : Option UIState :=
  match p with
  | Packet.initConfig cfg => do
    let pg ← cfg.lookup "pos_gain"
    let vg ← cfg.lookup "vel_gain"
    let vig ← cfg.lookup "vel_integrator_gain"
    let m ← cfg.lookup "mode"
    some { ui with
      pos_g_shown := pg
      vel_g_shown := vg
      vel_i_shown := vig
      mode_index := if m = 1 then 0 else 1 }
  | Packet.telemetry data => do
    let vstate ← data.lookup "state"
    let vctrl ← data.lookup "ctrl_mode"
    let vinp ← data.lookup "input_mode"
    let viq ← data.lookup "iq"
    let vvbus ← data.lookup "vbus"
    let vshadow ← data.lookup "shadow"
    let verr ← data.lookup "error"
    let vpos ← data.lookup "pos"
    let vvel ← data.lookup "vel"
    let iq_d := ui.iq_data ++ [viq]
    let vbus_d := ui.vbus_data ++ [vvbus]
    let pos_d := ui.pos_data ++ [vpos]
    let vel_d := ui.vel_data ++ [vvel]
    let pop := iq_d.length > MainWindow.max_points
    let iq_d := if pop then iq_d.tail else iq_d
    let vbus_d := if pop then vbus_d.tail else vbus_d
    let pos_d := if pop then pos_d.tail else pos_d
    let vel_d := if pop then vel_d.tail else vel_d
    some { ui with
      current_axis_state := vstate
      label_state := vstate
      label_ctrl_mode := vctrl
      label_inp_mode := vinp
      current_label := viq
      power_label := vvbus * |viq|
      vbus_label := vvbus
      label_shadow := vshadow
      label_error := verr
      label_live_pos := vpos
      label_live_vel := vvel
      iq_data := iq_d
      vbus_data := vbus_d
      pos_data := pos_d
      vel_data := vel_d
      iq_curve := iq_d
      vbus_curve := vbus_d
      pos_curve := pos_d
      vel_curve := vel_d }

/-- A healthy device: every read yields a value, every write and RPC
succeeds.  Attribute values are distinct small rationals. -/
def okDev : Device where
  read a := Except.ok
    (match a with
     | Attr.iqMeasured => 1/2
     | Attr.vbusVoltage => 241/10
     | Attr.posEstimate => 13/4
     | Attr.velEstimate => 0
     | Attr.shadowCount => 4096
     | Attr.axisError => 0
     | Attr.encoderError => 0
     | Attr.motorError => 0
     | Attr.currentState => 8
     | Attr.requestedState => 8
     | Attr.controlMode => 3
     | Attr.inputMode => 1
     | Attr.velLimit => 2
     | Attr.posGain => 20
     | Attr.velGain => 1/2000
     | Attr.velIntegratorGain => 1/1000
     | Attr.inputPos => 0
     | Attr.inputVel => 0)
  writeFails _ := false
  clearErrorsFails := false
  rebootFails := false

/-- A fully faulty device: every read and write raises, both RPC calls
raise. -/
def allFailDev : Device where
  read _ := Except.error ()
  writeFails _ := true
  clearErrorsFails := true
  rebootFails := true

/-- A device whose attribute reads and writes succeed but whose
device-level `clear_errors()` and `reboot()` RPC calls raise. -/
def rpcFailDev : Device where
  read := okDev.read
  writeFails _ := false
  clearErrorsFails := true
  rebootFails := true

/-- A device on which the very first init read-back attribute
(`pos_gain`) raises while everything else behaves; models a transient
fault between `find_any` and the config read-back. -/
def cfgFailDev : Device where
  read a := if a = Attr.posGain then Except.error () else okDev.read a
  writeFails _ := false
  clearErrorsFails := false
  rebootFails := false

/-- Does the event write the given attribute? -/
def writesAttr (a : Attr) : DevEvent → Bool
  | DevEvent.write b _ => decide (b = a)
  | _ => false

/-- A discovery-cycle environment where `find_any` succeeds but the
first read-back attribute raises. -/
def cfgFailEnv : Env := ⟨true, cfgFailDev⟩

/-- A fully healthy cycle environment. -/
def okEnv : Env := ⟨true, okDev⟩

/-- Did some tuning, setpoint, or state write reach the device? -/
def isTuningWrite : DevEvent → Bool
  | DevEvent.write Attr.controlMode _ => true
  | DevEvent.write Attr.inputMode _ => true
  | DevEvent.write Attr.velLimit _ => true
  | DevEvent.write Attr.posGain _ => true
  | DevEvent.write Attr.velGain _ => true
  | DevEvent.write Attr.velIntegratorGain _ => true
  | DevEvent.write Attr.inputPos _ => true
  | DevEvent.write Attr.inputVel _ => true
  | DevEvent.write Attr.requestedState _ => true
  | _ => false

/-- Does at least one of the four tuning line edits fail `float(...)`
parsing? -/
def tuningParseFails (ui : UIInput) : Bool :=
  ui.pos_g_text.isNone || ui.vel_g_text.isNone ||
  ui.vel_i_text.isNone || ui.vel_lim_text.isNone

/-- A UI state whose position-gain text is non-numeric while a device
is connected; its setpoint text is numeric. -/
def badTuningUI : UIInput :=
  ⟨none, some (1/2000), some (1/1000), some 2, some 0, 0, 0⟩

/-- A UI state whose position-gain text and setpoint text are both
non-numeric. -/
def invalidUI : UIInput :=
  ⟨none, some (1/2000), some (1/1000), some 2, none, 0, 0⟩

/-- A small concrete presentation state: one sample in each buffer. -/
def sampleUI : UIState :=
  ⟨[1], [24], [0], [0], 8, 20, 1/2000, 1/1000, 0, 8, 3, 1, 1, 24, 24,
   4096, 0, 0, 0, [1], [24], [0], [0]⟩

/-- A concrete complete telemetry dict, as the poll loop emits it. -/
def sampleTelemetry : List (String × Rat) :=
  [("iq", 1/2), ("vbus", 241/10), ("pos", 13/4), ("vel", 0),
   ("shadow", 4096), ("error", 0), ("enc_error", 0), ("state", 8),
   ("ctrl_mode", 3), ("input_mode", 1)]

/-- A concrete init-config dict, as the discovery read-back emits it. -/
def sampleInitCfg : List (String × Rat) :=
  [("pos_gain", 20), ("vel_gain", 1/2000),
   ("vel_integrator_gain", 1/1000), ("mode", 1)]

/-- The trace of a single-write sequence is that one write attempt,
whether or not the write succeeds. -/
theorem writeSeq_single_trace (d : Device) (a : Attr) (v : Rat) :
    (writeSeq d [(a, v)]).1 = [DevEvent.write a v] := by
  unfold writeSeq
  split <;> rfl

/-- C7: every dispatcher operation invoked with no connection handle is
a no-op: no device access is attempted, no signal is emitted, no
exception is raised, and the handle stays `none`. -/
theorem dispatcher_noop_when_disconnected
    (code pg vg vig vlim mode v : Rat) (m : Bool) :
    ODriveWorker.set_state none code = ⟨none, [], [], false⟩ ∧
    ODriveWorker.update_tuning none pg vg vig vlim mode = ⟨none, [], [], false⟩ ∧
    ODriveWorker.set_input none v m = ⟨none, [], [], false⟩ ∧
    ODriveWorker.clear_errors none = ⟨none, [], [], false⟩ ∧
    ODriveWorker.reboot none = ⟨none, [], [], false⟩ :=
  ⟨rfl, rfl, rfl, rfl, rfl⟩

/-- C9: `reboot` with an active connection always discards the handle:
for every device behaviour — the `reboot()` RPC raising or not — the
handle becomes `none`, the call is best-effort (no exception escapes),
and the reboot request was attempted. -/
theorem reboot_discards_handle (d : Device) :
    ODriveWorker.reboot (some d) = ⟨none, [], [DevEvent.rebootCall], false⟩ :=
  rfl

/-- C6: a setpoint dispatch with an active connection attempts exactly
one setpoint write — `input_pos` in position mode, `input_vel`
otherwise — and never both; `send_target` selects position mode exactly
when the mode combo box is at index 0. -/
theorem set_input_exclusive (d : Device) (v : Rat) (m : Bool) :
    (ODriveWorker.set_input (some d) v m).trace
      = [DevEvent.write (if m then Attr.inputPos else Attr.inputVel) v] ∧
    ¬ ((ODriveWorker.set_input (some d) v m).trace.any (writesAttr Attr.inputPos) = true ∧
       (ODriveWorker.set_input (some d) v m).trace.any (writesAttr Attr.inputVel) = true) ∧
    ∀ (ui : UIInput) (w : Option Device) (val : Rat),
      MainWindow.send_target ui w val
        = ODriveWorker.set_input w val (decide (ui.mode_index = 0)) := by
  refine ⟨?_, ?_, fun _ _ _ => rfl⟩
  · cases m <;> simp [ODriveWorker.set_input, writeSeq_single_trace]
  · cases m <;>
      simp [ODriveWorker.set_input, writeSeq_single_trace, writesAttr]

/-- C2: with an active connection and a healthy device, `update_tuning`
performs the device writes in exactly the source order — control mode,
input mode (the constant 1), velocity limit, position gain, velocity
gain, velocity integrator gain — and only after all gains are written
does it read the position estimate, re-seed `input_pos` with it, and
zero `input_vel`. -/
theorem update_tuning_write_order (d : Device) (pg vg vig vlim mode p : Rat)
    (hw : ∀ a, d.writeFails a = false)
    (hp : d.read Attr.posEstimate = Except.ok p) :
    (ODriveWorker.update_tuning (some d) pg vg vig vlim mode).trace =
      [DevEvent.write Attr.controlMode mode,
       DevEvent.write Attr.inputMode 1,
       DevEvent.write Attr.velLimit vlim,
       DevEvent.write Attr.posGain pg,
       DevEvent.write Attr.velGain vg,
       DevEvent.write Attr.velIntegratorGain vig,
       DevEvent.readAttr Attr.posEstimate,
       DevEvent.write Attr.inputPos p,
       DevEvent.write Attr.inputVel 0] ∧
    (ODriveWorker.update_tuning (some d) pg vg vig vlim mode).raised = false := by
  constructor <;> simp [ODriveWorker.update_tuning, writeSeq, hw, hp]

/-- Witness for `update_tuning_write_order` on the healthy device
`okDev`. -/
theorem update_tuning_write_order_witness :
    (ODriveWorker.update_tuning (some okDev) 20 (1/2000) (1/1000) 2 3).trace =
      [DevEvent.write Attr.controlMode 3,
       DevEvent.write Attr.inputMode 1,
       DevEvent.write Attr.velLimit 2,
       DevEvent.write Attr.posGain 20,
       DevEvent.write Attr.velGain (1/2000),
       DevEvent.write Attr.velIntegratorGain (1/1000),
       DevEvent.readAttr Attr.posEstimate,
       DevEvent.write Attr.inputPos (13/4),
       DevEvent.write Attr.inputVel 0] ∧
    (ODriveWorker.update_tuning (some okDev) 20 (1/2000) (1/1000) 2 3).raised = false :=
  update_tuning_write_order okDev 20 (1/2000) (1/1000) 2 3 (13/4)
    (fun _ => rfl) rfl

/-- A successful full read pass yields values for exactly the requested
keys, in order. -/
theorem readFields_keys (d : Device) (l : List (String × Attr)) :
    ∀ vs, readFields d l = Except.ok vs → vs.map Prod.fst = l.map Prod.fst := by
  induction l with
  | nil =>
    intro vs h
    cases h
    rfl
  | cons hd tl ih =>
    intro vs h
    obtain ⟨k, a⟩ := hd
    unfold readFields at h
    cases hr : d.read a with
    | error e => rw [hr] at h; cases h
    | ok v =>
      rw [hr] at h
      cases ht : readFields d tl with
      | error e => rw [ht] at h; cases h
      | ok ws =>
        rw [ht] at h
        cases h
        simp [ih ws ht]

/-- C1: each poll cycle while connected is all-or-nothing: either a
single telemetry snapshot is emitted carrying exactly the ten fields
`iq, vbus, pos, vel, shadow, error, enc_error, state, ctrl_mode,
input_mode` and the handle is retained, or — when any attribute read
raises — no data signal is emitted at all, the handle is discarded
and a single `Disconnected` status is emitted in that same cycle.
A snapshot with fewer fields is never emitted. -/
theorem poll_cycle_all_or_nothing (d : Device) :
    (∃ vs, ODriveWorker.pollCycle d
        = (true, [Signal.dataReceived (Packet.telemetry vs)]) ∧
      vs.map Prod.fst = ["iq", "vbus", "pos", "vel", "shadow", "error",
        "enc_error", "state", "ctrl_mode", "input_mode"]) ∨
    ODriveWorker.pollCycle d
      = (false, [Signal.connectionStatus false "Disconnected"]) := by
  cases h : readFields d pollFields with
  | ok vs =>
    left
    refine ⟨vs, ?_, ?_⟩
    · simp [ODriveWorker.pollCycle, h]
    · simpa [pollFields] using readFields_keys d pollFields vs h
  | error e =>
    right
    simp [ODriveWorker.pollCycle, h]

/-- The poll body never emits an init-config packet. -/
theorem pollCycle_no_init (d : Device) :
    ((ODriveWorker.pollCycle d).2.filter isInitSignal) = [] := by
  cases h : readFields d pollFields <;>
    simp [ODriveWorker.pollCycle, h, isInitSignal]

/-- C5 counterexample: a successful discovery (`find_any` returns a
handle) whose init read-back raises publishes NO initialization event
at all, keeps the handle, and the next poll cycle publishes a regular
telemetry snapshot — so a telemetry snapshot is published for this
connection without any preceding init event, refuting the claim. -/
theorem init_event_skipped_cex :
    cfgFailEnv.findSucceeds = true ∧
    (ODriveWorker.runIter false cfgFailEnv).1 = true ∧
    (ODriveWorker.runLoop false [cfgFailEnv, okEnv]).any isInitSignal = false ∧
    (ODriveWorker.runLoop false [cfgFailEnv, okEnv]).any isTelemetrySignal = true := by
  refine ⟨rfl, rfl, rfl, rfl⟩

/-- C5 (amended): for every successful discovery whose four-field
tuning read-back also succeeds, the iteration emits exactly one
initialization event, placed before the poll body's signals (hence
before any telemetry snapshot of that connection), and poll cycles —
the only source of later signals while the handle is held — never emit
an init event. -/
theorem init_event_before_telemetry (e : Env) (cfg : List (String × Rat))
    (hfind : e.findSucceeds = true)
    (hcfg : readFields e.dev initFields = Except.ok cfg) :
    (ODriveWorker.runIter false e).2
      = Signal.connectionStatus false "Searching..."
        :: Signal.dataReceived (Packet.initConfig cfg)
        :: Signal.connectionStatus true "Connected"
        :: (ODriveWorker.pollCycle e.dev).2 ∧
    ((ODriveWorker.runIter false e).2.filter isInitSignal)
      = [Signal.dataReceived (Packet.initConfig cfg)] ∧
    ∀ d, ((ODriveWorker.pollCycle d).2.filter isInitSignal) = [] := by
  refine ⟨?_, ?_, pollCycle_no_init⟩
  · simp [ODriveWorker.runIter, hfind, hcfg]
  · simp [ODriveWorker.runIter, hfind, hcfg, isInitSignal, pollCycle_no_init]

/-- Witness for `init_event_before_telemetry` on a healthy discovery
cycle. -/
theorem init_event_before_telemetry_witness :
    (ODriveWorker.runIter false okEnv).2
      = Signal.connectionStatus false "Searching..."
        :: Signal.dataReceived (Packet.initConfig
            [("pos_gain", 20), ("vel_gain", 1/2000),
             ("vel_integrator_gain", 1/1000), ("mode", 3)])
        :: Signal.connectionStatus true "Connected"
        :: (ODriveWorker.pollCycle okEnv.dev).2 ∧
    ((ODriveWorker.runIter false okEnv).2.filter isInitSignal)
      = [Signal.dataReceived (Packet.initConfig
          [("pos_gain", 20), ("vel_gain", 1/2000),
           ("vel_integrator_gain", 1/1000), ("mode", 3)])] ∧
    ∀ d, ((ODriveWorker.pollCycle d).2.filter isInitSignal) = [] :=
  init_event_before_telemetry okEnv
    [("pos_gain", 20), ("vel_gain", 1/2000),
     ("vel_integrator_gain", 1/1000), ("mode", 3)] rfl rfl

/-- C4 counterexample: a `requested_state` write that raises with an
active connection does NOT discard the handle and does NOT emit a
`Disconnected` status — the exception simply escapes `set_state` — so
the failure is not fatal to the connection in the way the claim
states. -/
theorem dispatcher_write_failure_cex :
    (ODriveWorker.set_state (some allFailDev) 8).odrv = some allFailDev ∧
    (ODriveWorker.set_state (some allFailDev) 8).signals = [] ∧
    (ODriveWorker.set_state (some allFailDev) 8).raised = true :=
  ⟨rfl, rfl, rfl⟩

/-- C4 (amended): a raising state, tuning, or setpoint write is not
swallowed — the exception escapes the worker method, unlike the
best-effort `clear_errors()`/`reboot()` RPC failures — but it does not
itself discard the handle or emit any status; the handle is discarded
and `Disconnected` emitted by the poll loop when its read pass fails. -/
theorem dispatcher_write_failure_semantics (d d2 : Device)
    (code v pg vg vig vlim mode : Rat) (m : Bool)
    (hrs : d.writeFails Attr.requestedState = true)
    (hcm : d.writeFails Attr.controlMode = true)
    (hip : d.writeFails Attr.inputPos = true)
    (hiv : d.writeFails Attr.inputVel = true)
    (hrd : d.read Attr.iqMeasured = Except.error ())
    (h2w : ∀ a, d2.writeFails a = false)
    (h2c : d2.clearErrorsFails = true)
    (h2r : d2.rebootFails = true) :
    (ODriveWorker.set_state (some d) code).raised = true ∧
    (ODriveWorker.set_state (some d) code).odrv = some d ∧
    (ODriveWorker.set_state (some d) code).signals = [] ∧
    (ODriveWorker.update_tuning (some d) pg vg vig vlim mode).raised = true ∧
    (ODriveWorker.update_tuning (some d) pg vg vig vlim mode).odrv = some d ∧
    (ODriveWorker.update_tuning (some d) pg vg vig vlim mode).signals = [] ∧
    (ODriveWorker.set_input (some d) v m).raised = true ∧
    (ODriveWorker.set_input (some d) v m).odrv = some d ∧
    (ODriveWorker.set_input (some d) v m).signals = [] ∧
    (ODriveWorker.clear_errors (some d2)).raised = false ∧
    (ODriveWorker.reboot (some d2)).raised = false ∧
    (ODriveWorker.reboot (some d2)).odrv = none ∧
    ODriveWorker.pollCycle d
      = (false, [Signal.connectionStatus false "Disconnected"]) := by
  have hpoll : ODriveWorker.pollCycle d
      = (false, [Signal.connectionStatus false "Disconnected"]) := by
    simp [ODriveWorker.pollCycle, pollFields, readFields, hrd]
  refine ⟨?_, rfl, rfl, ?_, ?_, ?_, ?_, rfl, rfl, ?_, rfl, rfl, hpoll⟩
  · simp [ODriveWorker.set_state, writeSeq, hrs]
  · simp [ODriveWorker.update_tuning, writeSeq, hcm]
  · simp [ODriveWorker.update_tuning, writeSeq, hcm]
  · simp [ODriveWorker.update_tuning, writeSeq, hcm]
  · cases m <;> simp [ODriveWorker.set_input, writeSeq, hip, hiv]
  · simp [ODriveWorker.clear_errors, writeSeq, h2w]

/-- Witness for `dispatcher_write_failure_semantics` on the fully
faulty device and the RPC-only faulty device. -/
theorem dispatcher_write_failure_semantics_witness :
    (ODriveWorker.set_state (some allFailDev) 8).raised = true ∧
    (ODriveWorker.set_state (some allFailDev) 8).odrv = some allFailDev ∧
    (ODriveWorker.set_state (some allFailDev) 8).signals = [] ∧
    (ODriveWorker.update_tuning (some allFailDev) 20 (1/2000) (1/1000) 2 3).raised = true ∧
    (ODriveWorker.update_tuning (some allFailDev) 20 (1/2000) (1/1000) 2 3).odrv = some allFailDev ∧
    (ODriveWorker.update_tuning (some allFailDev) 20 (1/2000) (1/1000) 2 3).signals = [] ∧
    (ODriveWorker.set_input (some allFailDev) 1 true).raised = true ∧
    (ODriveWorker.set_input (some allFailDev) 1 true).odrv = some allFailDev ∧
    (ODriveWorker.set_input (some allFailDev) 1 true).signals = [] ∧
    (ODriveWorker.clear_errors (some rpcFailDev)).raised = false ∧
    (ODriveWorker.reboot (some rpcFailDev)).raised = false ∧
    (ODriveWorker.reboot (some rpcFailDev)).odrv = none ∧
    ODriveWorker.pollCycle allFailDev
      = (false, [Signal.connectionStatus false "Disconnected"]) :=
  dispatcher_write_failure_semantics allFailDev rpcFailDev 8 1 20 (1/2000)
    (1/1000) 2 3 true rfl rfl rfl rfl rfl (fun _ => rfl) rfl rfl

/-- `clear_errors` with a handle never changes the handle. -/
theorem clear_errors_odrv (d : Device) :
    (ODriveWorker.clear_errors (some d)).odrv = some d := by
  simp only [ODriveWorker.clear_errors]
  split <;> rfl

/-- `clear_errors` only ever touches the three error fields and the
device-level clear call — never a tuning, setpoint, or state
attribute. -/
theorem clear_errors_no_tuning_write (d : Device) :
    (ODriveWorker.clear_errors (some d)).trace.any isTuningWrite = false := by
  cases hA : d.writeFails Attr.axisError <;>
  cases hB : d.writeFails Attr.encoderError <;>
  cases hC : d.writeFails Attr.motorError <;>
    simp [ODriveWorker.clear_errors, writeSeq, hA, hB, hC, isTuningWrite]

/-- C3 counterexample: with an active connection and a non-numeric
position-gain entry, `apply_tuning` still interacts with the device —
it zeroes the three error fields and invokes the device-level
`clear_errors()` before the parse raises — so "no device interaction of
any kind is attempted and no device state changes" is false. -/
theorem apply_tuning_clears_before_validation_cex :
    (MainWindow.apply_tuning badTuningUI (some okDev)).trace
      = [DevEvent.write Attr.axisError 0,
         DevEvent.write Attr.encoderError 0,
         DevEvent.write Attr.motorError 0,
         DevEvent.clearErrorsCall] ∧
    (MainWindow.apply_tuning badTuningUI (some okDev)).trace ≠ [] := by
  refine ⟨rfl, by decide⟩

/-- C3 (amended): a non-numeric setpoint entry is rejected locally with
no device interaction and no state change at all; a non-numeric tuning
entry prevents every tuning, setpoint, and state write and leaves the
handle unchanged, but `apply_tuning` has already performed its
error-clearing device interaction before validation. -/
theorem invalid_input_rejection (ui : UIInput) (w : Option Device) (d : Device)
    (ht : ui.target_text = none) (hp : tuningParseFails ui = true) :
    MainWindow.handle_manual_input ui w = (ui, ⟨w, [], [], false⟩) ∧
    (MainWindow.apply_tuning ui (some d)).odrv = some d ∧
    (MainWindow.apply_tuning ui (some d)).trace
      = (ODriveWorker.clear_errors (some d)).trace ∧
    (MainWindow.apply_tuning ui (some d)).trace.any isTuningWrite = false := by
  have h1 : MainWindow.handle_manual_input ui w = (ui, ⟨w, [], [], false⟩) := by
    simp [MainWindow.handle_manual_input, ht]
  have key : (MainWindow.apply_tuning ui (some d)).odrv = some d ∧
      (MainWindow.apply_tuning ui (some d)).trace
        = (ODriveWorker.clear_errors (some d)).trace := by
    unfold MainWindow.apply_tuning
    cases hre : (ODriveWorker.clear_errors (some d)).raised
    · rcases hA : ui.pos_g_text with _ | pg <;>
      rcases hB : ui.vel_g_text with _ | vg <;>
      rcases hC : ui.vel_i_text with _ | vig <;>
      rcases hD : ui.vel_lim_text with _ | vlim <;>
        simp_all [tuningParseFails, clear_errors_odrv]
    · simp [hre, clear_errors_odrv]
  refine ⟨h1, key.1, key.2, ?_⟩
  rw [key.2]
  exact clear_errors_no_tuning_write d

/-- Witness for `invalid_input_rejection` on a doubly invalid UI state
and the healthy device. -/
theorem invalid_input_rejection_witness :
    MainWindow.handle_manual_input invalidUI none
      = (invalidUI, ⟨none, [], [], false⟩) ∧
    (MainWindow.apply_tuning invalidUI (some okDev)).odrv = some okDev ∧
    (MainWindow.apply_tuning invalidUI (some okDev)).trace
      = (ODriveWorker.clear_errors (some okDev)).trace ∧
    (MainWindow.apply_tuning invalidUI (some okDev)).trace.any isTuningWrite
      = false :=
  invalid_input_rejection invalidUI none okDev rfl rfl

/-- Appending to a nonempty list and popping the head commute: the
evicted element is the oldest one. -/
theorem tail_append_single {α : Type} (l : List α) (x : α) (h : l ≠ []) :
    (l ++ [x]).tail = l.tail ++ [x] := by
  cases l with
  | nil => exact absurd rfl h
  | cons a as => rfl

/-- C8: after a telemetry update on buffers of equal length at most
`max_points` (= 200), each of the four history buffers again holds at
most `max_points` samples; when the bound was reached the update drops
exactly the oldest sample of each buffer (FIFO) and appends the new
one, and below the bound it only appends. -/
theorem history_buffers_bounded (ui : UIState) (data : List (String × Rat))
    (vstate vctrl vinp viq vvbus vshadow verr vpos vvel : Rat)
    (hst : data.lookup "state" = some vstate)
    (hct : data.lookup "ctrl_mode" = some vctrl)
    (hin : data.lookup "input_mode" = some vinp)
    (hiq : data.lookup "iq" = some viq)
    (hvb : data.lookup "vbus" = some vvbus)
    (hsh : data.lookup "shadow" = some vshadow)
    (her : data.lookup "error" = some verr)
    (hps : data.lookup "pos" = some vpos)
    (hvl : data.lookup "vel" = some vvel)
    (hlv : ui.vbus_data.length = ui.iq_data.length)
    (hlp : ui.pos_data.length = ui.iq_data.length)
    (hll : ui.vel_data.length = ui.iq_data.length)
    (hle : ui.iq_data.length ≤ MainWindow.max_points) :
    ∃ ui', MainWindow.update_telemetry ui (Packet.telemetry data) = some ui' ∧
      ui'.iq_data.length ≤ MainWindow.max_points ∧
      ui'.vbus_data.length ≤ MainWindow.max_points ∧
      ui'.pos_data.length ≤ MainWindow.max_points ∧
      ui'.vel_data.length ≤ MainWindow.max_points ∧
      (ui.iq_data.length = MainWindow.max_points →
        ui'.iq_data = ui.iq_data.tail ++ [viq] ∧
        ui'.vbus_data = ui.vbus_data.tail ++ [vvbus] ∧
        ui'.pos_data = ui.pos_data.tail ++ [vpos] ∧
        ui'.vel_data = ui.vel_data.tail ++ [vvel]) ∧
      (ui.iq_data.length < MainWindow.max_points →
        ui'.iq_data = ui.iq_data ++ [viq] ∧
        ui'.vbus_data = ui.vbus_data ++ [vvbus] ∧
        ui'.pos_data = ui.pos_data ++ [vpos] ∧
        ui'.vel_data = ui.vel_data ++ [vvel]) := by
  simp only [MainWindow.update_telemetry, hst, hct, hin, hiq, hvb, hsh, her,
    hps, hvl, Option.some_bind]
  refine ⟨_, rfl, ?_⟩
  have h200 : MainWindow.max_points = 200 := rfl
  by_cases hc : ui.iq_data.length = MainWindow.max_points
  · have hgt : (ui.iq_data ++ [viq]).length > MainWindow.max_points := by
      simp [hc]
    have hnil : ui.iq_data ≠ [] := by
      intro h0
      rw [h0] at hc
      simp [MainWindow.max_points] at hc
    have hnilb : ui.vbus_data ≠ [] := by
      intro h0
      rw [h0, hc] at hlv
      simp [MainWindow.max_points] at hlv
    have hnilp : ui.pos_data ≠ [] := by
      intro h0
      rw [h0, hc] at hlp
      simp [MainWindow.max_points] at hlp
    have hnill : ui.vel_data ≠ [] := by
      intro h0
      rw [h0, hc] at hll
      simp [MainWindow.max_points] at hll
    simp only [hgt, if_true,
      tail_append_single ui.iq_data viq hnil,
      tail_append_single ui.vbus_data vvbus hnilb,
      tail_append_single ui.pos_data vpos hnilp,
      tail_append_single ui.vel_data vvel hnill]
    refine ⟨?_, ?_, ?_, ?_, ?_, fun hlt => absurd hc (Nat.ne_of_lt hlt)⟩
    · simp only [List.length_append, List.length_singleton, List.length_tail]
      omega
    · simp only [List.length_append, List.length_singleton, List.length_tail]
      omega
    · simp only [List.length_append, List.length_singleton, List.length_tail]
      omega
    · simp only [List.length_append, List.length_singleton, List.length_tail]
      omega
    · intro _
      simp
  · have hlt : ui.iq_data.length < MainWindow.max_points :=
      lt_of_le_of_ne hle hc
    have hngt : ¬ (ui.iq_data ++ [viq]).length > MainWindow.max_points := by
      simp only [List.length_append, List.length_singleton]
      omega
    rw [if_neg hngt, if_neg hngt, if_neg hngt, if_neg hngt]
    refine ⟨?_, ?_, ?_, ?_, fun heq => absurd heq hc, ?_⟩
    · simp only [List.length_append, List.length_singleton]
      omega
    · simp only [List.length_append, List.length_singleton]
      omega
    · simp only [List.length_append, List.length_singleton]
      omega
    · simp only [List.length_append, List.length_singleton]
      omega
    · intro _
      simp

/-- Witness for `history_buffers_bounded` on the one-sample buffers and
the concrete telemetry dict. -/
theorem history_buffers_bounded_witness :
    ∃ ui', MainWindow.update_telemetry sampleUI (Packet.telemetry sampleTelemetry)
        = some ui' ∧
      ui'.iq_data.length ≤ MainWindow.max_points ∧
      ui'.vbus_data.length ≤ MainWindow.max_points ∧
      ui'.pos_data.length ≤ MainWindow.max_points ∧
      ui'.vel_data.length ≤ MainWindow.max_points ∧
      (sampleUI.iq_data.length = MainWindow.max_points →
        ui'.iq_data = sampleUI.iq_data.tail ++ [1/2] ∧
        ui'.vbus_data = sampleUI.vbus_data.tail ++ [241/10] ∧
        ui'.pos_data = sampleUI.pos_data.tail ++ [13/4] ∧
        ui'.vel_data = sampleUI.vel_data.tail ++ [0]) ∧
      (sampleUI.iq_data.length < MainWindow.max_points →
        ui'.iq_data = sampleUI.iq_data ++ [1/2] ∧
        ui'.vbus_data = sampleUI.vbus_data ++ [241/10] ∧
        ui'.pos_data = sampleUI.pos_data ++ [13/4] ∧
        ui'.vel_data = sampleUI.vel_data ++ [0]) :=
  history_buffers_bounded sampleUI sampleTelemetry 8 3 1 (1/2) (241/10) 4096 0
    (13/4) 0 rfl rfl rfl rfl rfl rfl rfl rfl rfl rfl rfl rfl (by decide)

/-- C10: an init-config packet updates exactly the three gain line
edits and the mode combo box; the handler returns early, so the four
history buffers, the cached axis state, every telemetry label, and
every plot curve are left unchanged by that event. -/
theorem init_config_frame (ui : UIState) (cfg : List (String × Rat))
    (pg vg vig m : Rat)
    (hpg : cfg.lookup "pos_gain" = some pg)
    (hvg : cfg.lookup "vel_gain" = some vg)
    (hvig : cfg.lookup "vel_integrator_gain" = some vig)
    (hm : cfg.lookup "mode" = some m) :
    MainWindow.update_telemetry ui (Packet.initConfig cfg) = some
      { ui with
        pos_g_shown := pg
        vel_g_shown := vg
        vel_i_shown := vig
        mode_index := if m = 1 then 0 else 1 } ∧
    ∀ ui', MainWindow.update_telemetry ui (Packet.initConfig cfg) = some ui' →
      ui'.iq_data = ui.iq_data ∧ ui'.vbus_data = ui.vbus_data ∧
      ui'.pos_data = ui.pos_data ∧ ui'.vel_data = ui.vel_data ∧
      ui'.current_axis_state = ui.current_axis_state ∧
      ui'.label_state = ui.label_state ∧
      ui'.label_ctrl_mode = ui.label_ctrl_mode ∧
      ui'.label_inp_mode = ui.label_inp_mode ∧
      ui'.current_label = ui.current_label ∧
      ui'.power_label = ui.power_label ∧
      ui'.vbus_label = ui.vbus_label ∧
      ui'.label_shadow = ui.label_shadow ∧
      ui'.label_error = ui.label_error ∧
      ui'.label_live_pos = ui.label_live_pos ∧
      ui'.label_live_vel = ui.label_live_vel ∧
      ui'.iq_curve = ui.iq_curve ∧ ui'.vbus_curve = ui.vbus_curve ∧
      ui'.pos_curve = ui.pos_curve ∧ ui'.vel_curve = ui.vel_curve ∧
      ui'.pos_g_shown = pg ∧ ui'.vel_g_shown = vg ∧
      ui'.vel_i_shown = vig ∧
      ui'.mode_index = (if m = 1 then 0 else 1) := by
  have h : MainWindow.update_telemetry ui (Packet.initConfig cfg) = some
      { ui with
        pos_g_shown := pg
        vel_g_shown := vg
        vel_i_shown := vig
        mode_index := if m = 1 then 0 else 1 } := by
    simp [MainWindow.update_telemetry, hpg, hvg, hvig, hm]
  refine ⟨h, ?_⟩
  intro ui' h2
  rw [h] at h2
  cases h2
  exact ⟨rfl, rfl, rfl, rfl, rfl, rfl, rfl, rfl, rfl, rfl, rfl, rfl, rfl,
    rfl, rfl, rfl, rfl, rfl, rfl, rfl, rfl, rfl, rfl⟩

/-- Witness for `init_config_frame` on the concrete presentation state
and init-config dict. -/
theorem init_config_frame_witness :
    MainWindow.update_telemetry sampleUI (Packet.initConfig sampleInitCfg) = some
      { sampleUI with
        pos_g_shown := 20
        vel_g_shown := 1/2000
        vel_i_shown := 1/1000
        mode_index := if (1 : Rat) = 1 then 0 else 1 } :=
  (init_config_frame sampleUI sampleInitCfg 20 (1/2000) (1/1000) 1
    rfl rfl rfl rfl).1

